import Mathlib

/-!
Verification development for the PA12-PCC endangered-species manager.

The repository keeps an in-memory table of records (species, count, year,
province) and offers load/add/modify/delete operations plus a small
statistics pipeline (yearly aggregation, degree-1 least-squares trend,
three-year projection).  This file embeds that core shallowly:

* a pandas `DataFrame` with its label index becomes a `List (Nat × Registro)`
  (label, row) together with the invariant that labels form the contiguous
  range `0 .. length-1`;
* Python string operations (`strip`, `lower`, substring `in`, `sorted`)
  become structural functions on `List Char`, which agree with Python's
  code-point semantics on the data handled by the program;
* `numpy.polyfit(x, y, 1)` becomes the closed-form ordinary least-squares
  solution over `ℚ` (the unique least-squares line once two distinct x
  values exist), and Python's `round` (banker's rounding, half to even)
  becomes `roundHalfEven`.
-/

/-- Python `str.strip()` on the character list: drop whitespace from both
ends. -/
def trimChars (l : List Char) : List Char :=
  ((l.dropWhile Char.isWhitespace).reverse.dropWhile Char.isWhitespace).reverse

/-- Python `str.strip()` for `String` (structural, kernel-computable). -/
def strTrim (s : String) : String := ⟨trimChars s.data⟩

/-- Python `str.lower()` (ASCII case folding; every non-ASCII character
appearing in the program's data is already lowercase). -/
def toLowerStr (s : String) : String := ⟨s.data.map Char.toLower⟩

/-- Does the first character list start with the second list's characters?
Helper for the substring test. -/
def charsStart : List Char → List Char → Bool
  | [], _ => true
  | _ :: _, [] => false
  | a :: as, b :: bs => a == b && charsStart as bs

/-- Python `needle in hay` for strings: `needle` occurs as a contiguous run
inside `hay`.  The empty needle occurs in every string, exactly as in
Python. -/
def charSub (n : List Char) : List Char → Bool
  | [] => n.isEmpty
  | b :: bs => charsStart n (b :: bs) || charSub n bs

/-- `PROVINCIAS_PANAMA` from `src/main.py` (and
`src/AppAnimales/datos_globales.py`). -/
def PROVINCIAS_PANAMA : List String :=
  ["Bocas del Toro", "Chiriquí", "Coclé", "Colón", "Darién",
   "Herrera", "Los Santos", "Panamá", "Veraguas", "Panamá Oeste"]

/-- `ESPECIES_PANAMA` from `src/main.py`. -/
def ESPECIES_PANAMA : List String :=
  ["Águila Arpía", "Jaguar", "Perezoso de Tres Dedos",
   "Tapir Centroamericano", "Tortuga Carey", "Rana Dorada"]

/-- The partial-match test of `corregir_provincia` (`src/main.py` line 125):
`prov.lower() in p.lower() or p.lower() in prov.lower()` — case-insensitive
substring containment in either direction. -/
def matchParcial (prov p : String) : Bool :=
  charSub (toLowerStr prov).data (toLowerStr p).data ||
    charSub (toLowerStr p).data (toLowerStr prov).data

/-- `corregir_provincia` from `GestorAnimales._validar_provincias`
(`src/main.py` lines 119-127): strip, exact hit keeps the stripped value,
otherwise the first enumerated province with a partial match, otherwise the
stripped value. -/
def corregir_provincia (prov0 : String) : String :=
  let prov := strTrim prov0
  if prov ∈ PROVINCIAS_PANAMA then prov
  else
    match PROVINCIAS_PANAMA.find? (fun p => matchParcial prov p) with
    | some p => p
    | none => prov

/-- One row of the canonical table: the four columns
`Especie, Cantidad, Año, Provincia` of `COLUMNAS_REQUERIDAS`, in order. -/
structure Registro where
  especie : String
  cantidad : Int
  anio : Int
  provincia : String
deriving DecidableEq, Repr

/-- One raw spreadsheet row as seen by `cargar_excel` after pandas parsing:
`none` in a field means the whole column is absent from the input file (the
load backfills it).  `cantidad`/`anio` carry the already-coerced numeric
value (`pd.to_numeric(...).fillna(0).astype(int)`). -/
structure FilaCruda where
  especie : Option String
  cantidad : Option Int
  anio : Option Int
  provincia : Option String
deriving DecidableEq, Repr

/-- Attach the fresh pandas `RangeIndex` `0 .. n-1` to a list of rows
(`pd.read_excel` default index / `ignore_index=True` / `reset_index`). -/
def relabelRange (rs : List Registro) : List (Nat × Registro) :=
  (List.range rs.length).zip rs

/-- The row-normalisation pipeline of `cargar_excel` (`src/main.py` lines
87-104) for one row: missing columns backfilled with `""`/`0`, strings
stripped, then province normalisation. -/
def cargarFila (f : FilaCruda) : Registro :=
  { especie := strTrim (f.especie.getD "")
    cantidad := f.cantidad.getD 0
    anio := f.anio.getD 0
    provincia := corregir_provincia (strTrim (f.provincia.getD "")) }

/-- `cargar_excel` after the file has been read: normalise every row and
install the contiguous index.  The I/O failure branch (unreadable file) is
outside the embedded table pipeline. -/
def cargarDesdeTabla (filas : List FilaCruda) : List (Nat × Registro) :=
  relabelRange (filas.map cargarFila)

/-- Code-point lexicographic `≤` on character lists: Python's string
comparison. -/
def charLe : List Char → List Char → Bool
  | [], _ => true
  | _ :: _, [] => false
  | a :: as, b :: bs =>
    if a < b then true
    else if b < a then false
    else charLe as bs

/-- Python string `≤` (code-point lexicographic), used by `sorted`. -/
def strLeB (a b : String) : Bool := charLe a.data b.data

/-- Decidable `≤` on `Int` as a `Bool` relation, for sorting years. -/
def intLeB (a b : Int) : Bool := decide (a ≤ b)

/-- Insert into a sorted list, keeping `le`-sortedness: one step of the
insertion sort modelling Python's `sorted`. -/
def insertSorted {α : Type} (le : α → α → Bool) (a : α) : List α → List α
  | [] => [a]
  | b :: l => if le a b then a :: b :: l else b :: insertSorted le a l

/-- Python `sorted` (as insertion sort; the result is the unique `le`-sorted
rearrangement when `le` is a total order). -/
def sortBy {α : Type} (le : α → α → Bool) (l : List α) : List α :=
  l.foldr (insertSorted le) []

theorem insertSorted_perm {α : Type} (le : α → α → Bool) (a : α) (l : List α) :
    (insertSorted le a l).Perm (a :: l) := by
  induction l with
  | nil => simp [insertSorted]
  | cons b t ih =>
    by_cases h : le a b = true
    · simp [insertSorted, h]
    · simp only [insertSorted, h, if_false, Bool.false_eq_true]
      exact List.Perm.trans (ih.cons b) (List.Perm.swap a b t)

theorem sortBy_perm {α : Type} (le : α → α → Bool) (l : List α) :
    (sortBy le l).Perm l := by
  induction l with
  | nil => rfl
  | cons a t ih =>
    exact List.Perm.trans (insertSorted_perm le a (sortBy le t)) (ih.cons a)

theorem pairwise_insertSorted {α : Type} (le : α → α → Bool)
    (htot : ∀ a b, le a b = true ∨ le b a = true)
    (htrans : ∀ a b c, le a b = true → le b c = true → le a c = true)
    (a : α) (l : List α) (h : l.Pairwise (fun x y => le x y = true)) :
    (insertSorted le a l).Pairwise (fun x y => le x y = true) := by
  induction l with
  | nil => simp [insertSorted]
  | cons b t ih =>
    rcases List.pairwise_cons.mp h with ⟨hb, ht⟩
    by_cases hab : le a b = true
    · simp only [insertSorted, hab, if_true]
      refine List.pairwise_cons.mpr ⟨?_, h⟩
      intro x hx
      rcases List.mem_cons.mp hx with rfl | hx
      · exact hab
      · exact htrans a b x hab (hb x hx)
    · simp only [insertSorted, hab, if_false, Bool.false_eq_true]
      refine List.pairwise_cons.mpr ⟨?_, ih ht⟩
      intro x hx
      have hx' := (insertSorted_perm le a t).mem_iff.mp hx
      rcases List.mem_cons.mp hx' with rfl | hx'
      · rcases htot x b with hc | hc
        · exact absurd hc hab
        · exact hc
      · exact hb x hx'

theorem pairwise_sortBy {α : Type} (le : α → α → Bool)
    (htot : ∀ a b, le a b = true ∨ le b a = true)
    (htrans : ∀ a b c, le a b = true → le b c = true → le a c = true)
    (l : List α) : (sortBy le l).Pairwise (fun x y => le x y = true) := by
  induction l with
  | nil => simp [sortBy]
  | cons a t ih => exact pairwise_insertSorted le htot htrans a _ ih

theorem charLe_total : ∀ a b, charLe a b = true ∨ charLe b a = true := by
  intro a
  induction a with
  | nil => intro b; left; cases b <;> rfl
  | cons x xs ih =>
    intro b
    cases b with
    | nil => right; rfl
    | cons y ys =>
      rcases lt_trichotomy x y with h | h | h
      · left; simp [charLe, h]
      · subst h
        have := ih ys
        rcases this with hc | hc
        · left; simpa [charLe, lt_irrefl] using hc
        · right; simpa [charLe, lt_irrefl] using hc
      · right; simp [charLe, h]

theorem charLe_trans :
    ∀ a b c, charLe a b = true → charLe b c = true → charLe a c = true := by
  intro a
  induction a with
  | nil => intro b c _ _; cases c <;> rfl
  | cons x xs ih =>
    intro b c h1 h2
    cases b with
    | nil => simp [charLe] at h1
    | cons y ys =>
      cases c with
      | nil => simp [charLe] at h2
      | cons z zs =>
        rcases lt_trichotomy x y with hxy | hxy | hxy
        · rcases lt_trichotomy y z with hyz | hyz | hyz
          · simp [charLe, lt_trans hxy hyz]
          · subst hyz; simp [charLe, hxy]
          · simp [charLe, hyz, asymm hyz] at h2
        · subst hxy
          rcases lt_trichotomy x z with hxz | hxz | hxz
          · simp [charLe, hxz]
          · subst hxz
            simp only [charLe, lt_irrefl, if_false] at h1 h2 ⊢
            exact ih ys zs h1 h2
          · simp [charLe, hxz, asymm hxz] at h2
        · simp [charLe, hxy, asymm hxy] at h1

theorem strLeB_total : ∀ a b : String, strLeB a b = true ∨ strLeB b a = true :=
  fun a b => charLe_total a.data b.data

theorem strLeB_trans :
    ∀ a b c : String, strLeB a b = true → strLeB b c = true → strLeB a c = true :=
  fun a b c => charLe_trans a.data b.data c.data

theorem intLeB_total : ∀ a b : Int, intLeB a b = true ∨ intLeB b a = true := by
  intro a b
  simp only [intLeB, decide_eq_true_eq]
  exact le_total a b

theorem intLeB_trans :
    ∀ a b c : Int, intLeB a b = true → intLeB b c = true → intLeB a c = true := by
  intro a b c h1 h2
  simp only [intLeB, decide_eq_true_eq] at h1 h2 ⊢
  exact le_trans h1 h2

/-- The validation chain shared verbatim by `agregar_registro` (`src/main.py`
lines 158-172) and `modificar_registro` (lines 195-205): first failing check
wins, `none` means every check passed. -/
def validar (especie : String) (cantidad anio : Int) (provincia : String) :
    Option String :=
  if strTrim especie = "" then some "Debe seleccionar una especie"
  else if especie ∉ ESPECIES_PANAMA then
    some "Especie no válida. Debe seleccionar de la lista"
  else if cantidad < 0 then some "La cantidad debe ser positiva"
  else if ¬(1900 ≤ anio ∧ anio ≤ 2100) then
    some "El año debe estar entre 1900 y 2100"
  else if provincia ∉ PROVINCIAS_PANAMA then some "Provincia no válida"
  else none

/-- The state of `GestorAnimales`: the labelled table and the
`cambios_sin_guardar` flag. -/
structure Gestor where
  df : List (Nat × Registro)
  cambiosSinGuardar : Bool
deriving DecidableEq, Repr

/-- The labels of the table form the contiguous pandas `RangeIndex`
`0 .. length-1`. -/
def etiquetasContiguas (df : List (Nat × Registro)) : Prop :=
  df.map Prod.fst = List.range df.length

/-- `GestorAnimales.agregar_registro` (`src/main.py` lines 155-187): validate,
then `pd.concat([df, nueva_fila], ignore_index=True)` (which relabels the
whole table with a fresh range index) and set the unsaved-changes flag.
Returns the new state plus the `(éxito, mensaje)` pair. -/
def agregar_registro (g : Gestor) (especie : String) (cantidad anio : Int)
    (provincia : String) : Gestor × Bool × String :=
  match validar especie cantidad anio provincia with
  | some msg => (g, false, msg)
  | none =>
    ({ df := relabelRange
          ((g.df.map Prod.snd) ++ [⟨strTrim especie, cantidad, anio, provincia⟩])
       cambiosSinGuardar := true },
     true, "Registro agregado correctamente")

/-- `GestorAnimales.modificar_registro` (`src/main.py` lines 189-219): bounds
check on the positional length, the same validations, then
`df.at[idx, ...] = ...`, an update of the row whose label is `idx` (datasets
reachable in the application always carry that label when the bounds check
passes — see the index invariant). -/
def modificar_registro (g : Gestor) (idx : Int) (especie : String)
    (cantidad anio : Int) (provincia : String) : Gestor × Bool × String :=
  if 0 ≤ idx ∧ idx < (g.df.length : Int) then
    match validar especie cantidad anio provincia with
    | some msg => (g, false, msg)
    | none =>
      ({ df := g.df.map (fun x =>
            if (x.1 : Int) = idx then
              (x.1, ⟨strTrim especie, cantidad, anio, provincia⟩)
            else x)
         cambiosSinGuardar := true },
       true, "Registro modificado correctamente")
  else (g, false, "Índice inválido")

/-- `GestorAnimales.eliminar_registro` (`src/main.py` lines 221-236): bounds
check, `df.drop(idx)` (drop the row labelled `idx`) followed by
`reset_index(drop=True)` (fresh range index). -/
def eliminar_registro (g : Gestor) (idx : Int) : Gestor × Bool × String :=
  if 0 ≤ idx ∧ idx < (g.df.length : Int) then
    ({ df := relabelRange
          (((g.df.filter (fun x => decide ((x.1 : Int) ≠ idx))).map Prod.snd))
       cambiosSinGuardar := true },
     true, "Registro eliminado correctamente")
  else (g, false, "Índice inválido")

/-- `GestorAnimales.obtener_especies` (`src/main.py` lines 238-242):
`sorted(df["Especie"].dropna().unique().tolist())`.  The embedded column has
no nulls (pandas `astype(str)` already turned them into text during load), so
`dropna` is the identity here; `unique` keeps one copy per distinct name and
`sorted` orders them by code point. -/
def obtener_especies (df : List Registro) : List String :=
  sortBy strLeB ((df.map (fun r => r.especie)).dedup)

/-- `GestorAnimales.obtener_datos_especie` (`src/main.py` lines 244-246):
rows whose species equals the argument exactly. -/
def obtener_datos_especie (df : List Registro) (especie : String) :
    List Registro :=
  df.filter (fun r => r.especie == especie)

/-- `datos.groupby("Año")["Cantidad"].sum().sort_index()` (`src/main.py`
line 256, `src/proyecto.py` line 511): the distinct years in ascending order,
each with the sum of the counts recorded for it. -/
def porAnio (datos : List Registro) : List (Int × Int) :=
  (sortBy intLeB ((datos.map (fun r => r.anio)).dedup)).map
    (fun a => (a, ((datos.filter (fun r => r.anio == a)).map
      (fun r => r.cantidad)).sum))

/-- `datos.groupby("Provincia")["Cantidad"].sum()` (`src/main.py` line 294):
distinct provinces in ascending dictionary-key order with summed counts. -/
def porProvinciaAgg (datos : List Registro) : List (String × Int) :=
  (sortBy strLeB ((datos.map (fun r => r.provincia)).dedup)).map
    (fun p => (p, ((datos.filter (fun r => r.provincia == p)).map
      (fun r => r.cantidad)).sum))

/-- `numpy.polyfit(x, y, 1)` on the (year, yearly sum) pairs: the closed-form
ordinary least-squares line `(pendiente, intercepto)`, the unique minimiser
of the squared residuals as soon as two distinct years are present. -/
def polyfit1 (pares : List (Int × Int)) : ℚ × ℚ :=
  let n : ℚ := pares.length
  let sx : ℚ := (pares.map (fun p => (p.1 : ℚ))).sum
  let sy : ℚ := (pares.map (fun p => (p.2 : ℚ))).sum
  let sxx : ℚ := (pares.map (fun p => (p.1 : ℚ) * (p.1 : ℚ))).sum
  let sxy : ℚ := (pares.map (fun p => (p.1 : ℚ) * (p.2 : ℚ))).sum
  let d : ℚ := n * sxx - sx * sx
  ((n * sxy - sx * sy) / d, (sy * sxx - sx * sxy) / d)

/-- `numpy.polyval(coef, x)` for a degree-1 coefficient pair. -/
def polyval1 (coef : ℚ × ℚ) (x : ℚ) : ℚ := coef.1 * x + coef.2

/-- Python / numpy `round`: round half to even (banker's rounding). -/
def roundHalfEven (q : ℚ) : Int :=
  if q - ⌊q⌋ < 1 / 2 then ⌊q⌋
  else if (1 : ℚ) / 2 < q - ⌊q⌋ then ⌊q⌋ + 1
  else if ⌊q⌋ % 2 = 0 then ⌊q⌋ else ⌊q⌋ + 1

/-- Python `int(...)` on a real value: truncation toward zero. -/
def truncQ (q : ℚ) : Int := if 0 ≤ q then ⌊q⌋ else -⌊-q⌋

/-- The slope classification of `calcular_estadisticas` (`src/main.py` lines
265-274). -/
def clasificarTendencia (pendiente : ℚ) : String :=
  if 5 < pendiente then "Aumento significativo"
  else if 0 < pendiente then "Aumento moderado"
  else if pendiente < -5 then "Disminución significativa"
  else if pendiente < 0 then "Disminución moderada"
  else "Estable"

/-- `int(x.max())`: the largest observed year of the subset (`src/main.py`
line 277, `src/proyecto.py` line 525).  Only used on non-empty data. -/
def maxAnio (datos : List Registro) : Int :=
  match datos.map (fun r => r.anio) with
  | [] => 0
  | a :: as => as.foldl max a

/-- The three-year projection loop shared by both report variants
(`src/main.py` lines 278-282, `src/proyecto.py` lines 526-529): evaluate the
fitted line at the next three years after the maximum observed year and
round; `clamp = true` is the `max(0, valor)` of the stricter variant,
`clamp = false` the unclamped simpler variant. -/
def proyectar (clamp : Bool) (datos : List Registro) : List (Int × Int) :=
  let coef := polyfit1 (porAnio datos)
  let ultimo := maxAnio datos
  ([1, 2, 3] : List Int).map (fun i =>
    let valor := roundHalfEven (polyval1 coef ((ultimo + i : Int) : ℚ))
    (ultimo + i, if clamp then max 0 valor else valor))

/-- The statistics bundle returned by `calcular_estadisticas`. -/
structure Stats where
  promedio : Int
  total : Int
  registros : Nat
  tendencia : String
  proyecciones : List (Int × Int)
  porAnioD : List (Int × Int)
  porProvincia : List (String × Int)
deriving DecidableEq, Repr

/-- `GestorAnimales.calcular_estadisticas` (`src/main.py` lines 248-295):
empty subset yields `{}` (here `none`); otherwise the bundle with
`promedio = int(mean)` (truncation), totals, the two-tier trend label when at
least two distinct years exist, and clamped three-year projections. -/
def calcular_estadisticas (df : List Registro) (especie : String) :
    Option Stats :=
  let datos := obtener_datos_especie df especie
  if datos.isEmpty then none
  else some
    { promedio := truncQ
        (((datos.map (fun r => (r.cantidad : ℚ))).sum) / (datos.length : ℚ))
      total := (datos.map (fun r => r.cantidad)).sum
      registros := datos.length
      tendencia :=
        if 1 < (porAnio datos).length then
          clasificarTendencia (polyfit1 (porAnio datos)).1
        else "Datos insuficientes"
      proyecciones :=
        if 1 < (porAnio datos).length then proyectar true datos else []
      porAnioD := porAnio datos
      porProvincia := porProvinciaAgg datos }

/-- The trend-and-projection part of `generar_informe` (`src/proyecto.py`
lines 510-529), the simpler report variant: sign-only conclusion and
unclamped projections. -/
def generar_informe_proyeccion (df : List Registro) (especie : String) :
    String × List (Int × Int) :=
  let filtrado := obtener_datos_especie df especie
  if 1 < (porAnio filtrado).length then
    ((if 0 < (polyfit1 (porAnio filtrado)).1 then
        "La población tiende a aumentar."
      else if (polyfit1 (porAnio filtrado)).1 < 0 then
        "La población tiende a disminuir."
      else "La población se mantiene estable."),
     proyectar false filtrado)
  else ("No hay suficientes datos para proyectar tendencia.", [])

/-! ### Structural lemmas about the labelled table and the analytics kernel -/

theorem map_fst_relabelRange (rs : List Registro) :
    (relabelRange rs).map Prod.fst = List.range rs.length :=
  List.map_fst_zip _ _ (by simp)

theorem length_relabelRange (rs : List Registro) :
    (relabelRange rs).length = rs.length := by
  simp [relabelRange]

theorem etiquetas_relabelRange (rs : List Registro) :
    etiquetasContiguas (relabelRange rs) := by
  unfold etiquetasContiguas
  rw [map_fst_relabelRange, length_relabelRange]

theorem relabelRange_append_singleton (rs : List Registro) (r : Registro) :
    relabelRange (rs ++ [r]) = relabelRange rs ++ [(rs.length, r)] := by
  unfold relabelRange
  rw [List.length_append, List.length_singleton, List.range_succ,
    List.zip_append (by simp)]
  rfl

theorem zip_fst_snd (l : List (Nat × Registro)) :
    (l.map Prod.fst).zip (l.map Prod.snd) = l := by
  induction l with
  | nil => rfl
  | cons a t ih => simpa using ih

theorem relabelRange_map_snd (df : List (Nat × Registro))
    (h : etiquetasContiguas df) : relabelRange (df.map Prod.snd) = df := by
  have h' : df.map Prod.fst = List.range df.length := h
  unfold relabelRange
  rw [List.length_map, ← h', zip_fst_snd]

theorem etiqueta_at (df : List (Nat × Registro)) (h : etiquetasContiguas df)
    (j : Nat) (hj : j < df.length) : (df[j]).1 = j := by
  have h1 : (df.map Prod.fst)[j]? = (List.range df.length)[j]? := by rw [h]
  rw [List.getElem?_map, List.getElem?_range hj,
    List.getElem?_eq_getElem hj] at h1
  simpa using h1

theorem modificar_map_eq_set (df : List (Nat × Registro))
    (h : etiquetasContiguas df) (idx : Int) (h0 : 0 ≤ idx) (r : Registro) :
    df.map (fun x => if (x.1 : Int) = idx then (x.1, r) else x)
      = df.set idx.toNat (idx.toNat, r) := by
  apply List.ext_getElem
  · simp
  · intro n h1 h2
    have hn : n < df.length := by simpa using h1
    simp only [List.getElem_map, List.getElem_set]
    have hl : (df[n]).1 = n := etiqueta_at df h n hn
    by_cases hc : ((n : Int) = idx)
    · have hc' : idx.toNat = n := by omega
      rw [hl, if_pos (by exact_mod_cast hc), if_pos hc', hc']
    · have hc' : ¬(idx.toNat = n) := by omega
      rw [hl, if_neg (by exact_mod_cast hc), if_neg hc']

theorem porAnio_nil : porAnio [] = [] := rfl

theorem clasificar_iffs (s : ℚ) :
    (clasificarTendencia s = "Aumento significativo" ↔ 5 < s) ∧
    (clasificarTendencia s = "Aumento moderado" ↔ 0 < s ∧ s ≤ 5) ∧
    (clasificarTendencia s = "Disminución significativa" ↔ s < -5) ∧
    (clasificarTendencia s = "Disminución moderada" ↔ -5 ≤ s ∧ s < 0) ∧
    (clasificarTendencia s = "Estable" ↔ s = 0) := by
  unfold clasificarTendencia
  split_ifs with h1 h2 h3 h4
  · refine ⟨⟨fun _ => h1, fun _ => rfl⟩,
      ⟨fun hh => absurd hh (by decide), fun hh => absurd h1 (not_lt.mpr hh.2)⟩,
      ⟨fun hh => absurd hh (by decide), fun hh => absurd hh (by linarith)⟩,
      ⟨fun hh => absurd hh (by decide), fun hh => absurd hh.2 (by linarith)⟩,
      ⟨fun hh => absurd hh (by decide),
       fun hh => absurd h1 (by rw [hh]; norm_num)⟩⟩
  · refine ⟨⟨fun hh => absurd hh (by decide), fun hh => absurd hh h1⟩,
      ⟨fun _ => ⟨h2, not_lt.mp h1⟩, fun _ => rfl⟩,
      ⟨fun hh => absurd hh (by decide), fun hh => absurd hh (by linarith)⟩,
      ⟨fun hh => absurd hh (by decide), fun hh => absurd hh.2 (by linarith)⟩,
      ⟨fun hh => absurd hh (by decide),
       fun hh => absurd h2 (by rw [hh]; norm_num)⟩⟩
  · refine ⟨⟨fun hh => absurd hh (by decide), fun hh => absurd hh h1⟩,
      ⟨fun hh => absurd hh (by decide), fun hh => absurd hh.1 h2⟩,
      ⟨fun _ => h3, fun _ => rfl⟩,
      ⟨fun hh => absurd hh (by decide), fun hh => absurd hh.1 (by linarith)⟩,
      ⟨fun hh => absurd hh (by decide),
       fun hh => absurd h3 (by rw [hh]; norm_num)⟩⟩
  · refine ⟨⟨fun hh => absurd hh (by decide), fun hh => absurd hh h1⟩,
      ⟨fun hh => absurd hh (by decide), fun hh => absurd hh.1 h2⟩,
      ⟨fun hh => absurd hh (by decide), fun hh => absurd hh h3⟩,
      ⟨fun _ => ⟨not_lt.mp h3, h4⟩, fun _ => rfl⟩,
      ⟨fun hh => absurd hh (by decide),
       fun hh => absurd h4 (by rw [hh]; norm_num)⟩⟩
  · have hz : s = 0 := le_antisymm (not_lt.mp h2) (not_lt.mp h4)
    refine ⟨⟨fun hh => absurd hh (by decide), fun hh => absurd hh h1⟩,
      ⟨fun hh => absurd hh (by decide), fun hh => absurd hh.1 h2⟩,
      ⟨fun hh => absurd hh (by decide), fun hh => absurd hh h3⟩,
      ⟨fun hh => absurd hh (by decide), fun hh => absurd hh.2 h4⟩,
      ⟨fun _ => hz, fun _ => rfl⟩⟩

theorem roundHalfEven_intCast (n : Int) : roundHalfEven ((n : ℚ)) = n := by
  unfold roundHalfEven
  rw [Int.floor_intCast]
  norm_num

theorem roundHalfEven_nearest (q : ℚ) :
    |q - (roundHalfEven q : ℚ)| ≤ 1 / 2 := by
  have h1 : ((⌊q⌋ : ℚ)) ≤ q := Int.floor_le q
  have h2 : q < (⌊q⌋ : ℚ) + 1 := Int.lt_floor_add_one q
  unfold roundHalfEven
  split_ifs with ha hb hc <;> rw [abs_le] <;> constructor <;> push_cast <;>
    linarith

/-! ### Concrete datasets used by the individual claims -/

/-- The three-record example subset of spec §8: counts 10, 20, 30 over the
years 2020-2022. -/
def dfEjemplo : List Registro :=
  [⟨"Jaguar", 10, 2020, "Panamá"⟩, ⟨"Jaguar", 20, 2021, "Panamá"⟩,
   ⟨"Jaguar", 30, 2022, "Panamá"⟩]

/-- Same shape as `dfEjemplo`, reserved for exercising the trend
classification. -/
def dfC2 : List Registro :=
  [⟨"Jaguar", 10, 2020, "Panamá"⟩, ⟨"Jaguar", 20, 2021, "Panamá"⟩,
   ⟨"Jaguar", 30, 2022, "Panamá"⟩]

/-- A strictly decreasing population: slope −10, so the unclamped variant
projects negative counts. -/
def dfDecreciente : List Registro :=
  [⟨"Tapir Centroamericano", 30, 2020, "Darién"⟩,
   ⟨"Tapir Centroamericano", 20, 2021, "Darién"⟩,
   ⟨"Tapir Centroamericano", 10, 2022, "Darién"⟩]

/-- A single-year subset: no projection is possible. -/
def dfUnAnio : List Registro := [⟨"Jaguar", 5, 2020, "Panamá"⟩]

/-- C1: on the subset {(2020,10),(2021,20),(2022,30)} the degree-1
least-squares fit of yearly sums against year has slope exactly 10,
`calcular_estadisticas` labels the trend with the (significant) increase
label, and projects (2023,40), (2024,50), (2025,60). -/
theorem C1_estadisticas_lineal :
    (polyfit1 (porAnio (obtener_datos_especie dfEjemplo "Jaguar"))).1 = 10 ∧
    calcular_estadisticas dfEjemplo "Jaguar" =
      some ⟨20, 60, 3, "Aumento significativo",
        [(2023, 40), (2024, 50), (2025, 60)],
        [(2020, 10), (2021, 20), (2022, 30)], [("Panamá", 60)]⟩ := by
  have hd : obtener_datos_especie dfEjemplo "Jaguar" = dfEjemplo := by decide
  have hpa : porAnio dfEjemplo = [(2020, 10), (2021, 20), (2022, 30)] := by
    decide
  have hfit : polyfit1 [(2020, 10), (2021, 20), (2022, 30)] = (10, -20190) := by
    simp [polyfit1]; norm_num
  have hmax : maxAnio dfEjemplo = 2022 := by decide
  have hpp : porProvinciaAgg dfEjemplo = [("Panamá", 60)] := by decide
  refine ⟨by rw [hd, hpa, hfit], ?_⟩
  simp only [calcular_estadisticas, proyectar, hd, hpa, hfit, hmax, hpp]
  norm_num [clasificarTendencia, roundHalfEven, polyval1, truncQ, dfEjemplo]

/-- C2: whenever the species subset spans at least two distinct years, the
stricter variant returns a statistics bundle and its trend label matches the
two-tier classification of the least-squares slope exactly: significant
increase iff slope > 5, moderate increase iff 0 < slope ≤ 5, significant
decrease iff slope < −5, moderate decrease iff −5 ≤ slope < 0, stable iff
slope = 0. -/
theorem C2_clasificacion_tendencia (df : List Registro) (especie : String)
    (h : 1 < (porAnio (obtener_datos_especie df especie)).length) :
    (calcular_estadisticas df especie).isSome = true ∧
    ∀ st, calcular_estadisticas df especie = some st →
      ((st.tendencia = "Aumento significativo" ↔
          5 < (polyfit1 (porAnio (obtener_datos_especie df especie))).1) ∧
       (st.tendencia = "Aumento moderado" ↔
          0 < (polyfit1 (porAnio (obtener_datos_especie df especie))).1 ∧
            (polyfit1 (porAnio (obtener_datos_especie df especie))).1 ≤ 5) ∧
       (st.tendencia = "Disminución significativa" ↔
          (polyfit1 (porAnio (obtener_datos_especie df especie))).1 < -5) ∧
       (st.tendencia = "Disminución moderada" ↔
          -5 ≤ (polyfit1 (porAnio (obtener_datos_especie df especie))).1 ∧
            (polyfit1 (porAnio (obtener_datos_especie df especie))).1 < 0) ∧
       (st.tendencia = "Estable" ↔
          (polyfit1 (porAnio (obtener_datos_especie df especie))).1 = 0)) := by
  have hne : (obtener_datos_especie df especie).isEmpty = false := by
    rcases hd : obtener_datos_especie df especie with _ | ⟨a, t⟩
    · rw [hd, porAnio_nil] at h; exact absurd h (by decide)
    · rfl
  constructor
  · unfold calcular_estadisticas
    simp [hne]
  · intro st hst
    unfold calcular_estadisticas at hst
    simp only [hne, Bool.false_eq_true, if_false, Option.some.injEq] at hst
    subst hst
    dsimp only
    rw [if_pos h]
    exact clasificar_iffs _

/-- Closed instance of `C2_clasificacion_tendencia` at the concrete
three-year dataset `dfC2`. -/
theorem C2_clasificacion_tendencia_witness :
    1 < (porAnio (obtener_datos_especie dfC2 "Jaguar")).length ∧
    (calcular_estadisticas dfC2 "Jaguar").isSome = true :=
  ⟨by decide, (C2_clasificacion_tendencia dfC2 "Jaguar" (by decide)).1⟩

/-- C3: with at least two distinct years the stricter variant's projections
are exactly the fitted line evaluated at the three years after the maximum
observed year, rounded (half-to-even) and clamped at 0 (hence never
negative), while the simpler variant returns the same values unclamped (and
does go negative, as `dfDecreciente` shows); with fewer than two distinct
years both variants report insufficient data and produce no projections;
`roundHalfEven` really is a nearest integer. -/
theorem C3_proyecciones :
    (∀ df especie st, calcular_estadisticas df especie = some st →
        1 < (porAnio (obtener_datos_especie df especie)).length →
        st.proyecciones =
          ([1, 2, 3] : List Int).map (fun i =>
            (maxAnio (obtener_datos_especie df especie) + i,
             max 0 (roundHalfEven (polyval1
               (polyfit1 (porAnio (obtener_datos_especie df especie)))
               ((maxAnio (obtener_datos_especie df especie) + i : Int) : ℚ))))) ∧
          ∀ p ∈ st.proyecciones, 0 ≤ p.2) ∧
    (∀ df especie, 1 < (porAnio (obtener_datos_especie df especie)).length →
        (generar_informe_proyeccion df especie).2 =
          ([1, 2, 3] : List Int).map (fun i =>
            (maxAnio (obtener_datos_especie df especie) + i,
             roundHalfEven (polyval1
               (polyfit1 (porAnio (obtener_datos_especie df especie)))
               ((maxAnio (obtener_datos_especie df especie) + i : Int) : ℚ))))) ∧
    (∀ df especie st, calcular_estadisticas df especie = some st →
        ¬ 1 < (porAnio (obtener_datos_especie df especie)).length →
        st.tendencia = "Datos insuficientes" ∧ st.proyecciones = []) ∧
    (∀ df especie, ¬ 1 < (porAnio (obtener_datos_especie df especie)).length →
        generar_informe_proyeccion df especie =
          ("No hay suficientes datos para proyectar tendencia.", [])) ∧
    (∀ q : ℚ, |q - (roundHalfEven q : ℚ)| ≤ 1 / 2) ∧
    (generar_informe_proyeccion dfDecreciente "Tapir Centroamericano").2 =
      [(2023, 0), (2024, -10), (2025, -20)] ∧
    (calcular_estadisticas dfDecreciente "Tapir Centroamericano").map
      Stats.proyecciones = some [(2023, 0), (2024, 0), (2025, 0)] := by
  have hdT : obtener_datos_especie dfDecreciente "Tapir Centroamericano"
      = dfDecreciente := by decide
  have hpaT : porAnio dfDecreciente = [(2020, 30), (2021, 20), (2022, 10)] := by
    decide
  have hfitT : polyfit1 [(2020, 30), (2021, 20), (2022, 10)]
      = (-10, 20230) := by
    simp [polyfit1]; norm_num
  have hmaxT : maxAnio dfDecreciente = 2022 := by decide
  have hneT : dfDecreciente.isEmpty = false := rfl
  have hval1 : polyval1 (-10, 20230) (((2022 : Int) + 1 : Int) : ℚ)
      = ((0 : Int) : ℚ) := by norm_num [polyval1]
  have hval2 : polyval1 (-10, 20230) (((2022 : Int) + 2 : Int) : ℚ)
      = ((-10 : Int) : ℚ) := by norm_num [polyval1]
  have hval3 : polyval1 (-10, 20230) (((2022 : Int) + 3 : Int) : ℚ)
      = ((-20 : Int) : ℚ) := by norm_num [polyval1]
  refine ⟨?_, ?_, ?_, ?_, roundHalfEven_nearest, ?_, ?_⟩
  · intro df especie st hst h
    by_cases hi : (obtener_datos_especie df especie).isEmpty = true
    · unfold calcular_estadisticas at hst
      simp only [hi, if_true] at hst
      exact absurd hst (by simp)
    · have hne : (obtener_datos_especie df especie).isEmpty = false := by
        simpa using hi
      unfold calcular_estadisticas at hst
      simp only [hne, Bool.false_eq_true, if_false, Option.some.injEq] at hst
      subst hst
      dsimp only
      rw [if_pos h]
      have heq : proyectar true (obtener_datos_especie df especie) =
          ([1, 2, 3] : List Int).map (fun i =>
            (maxAnio (obtener_datos_especie df especie) + i,
             max 0 (roundHalfEven (polyval1
               (polyfit1 (porAnio (obtener_datos_especie df especie)))
               ((maxAnio (obtener_datos_especie df especie) + i : Int) : ℚ))))) := by
        simp [proyectar]
      refine ⟨heq, ?_⟩
      intro p hp
      rw [heq] at hp
      obtain ⟨i, hi2, rfl⟩ := List.mem_map.mp hp
      exact le_max_left 0 _
  · intro df especie h
    unfold generar_informe_proyeccion
    rw [if_pos h]
    simp [proyectar]
  · intro df especie st hst h
    by_cases hi : (obtener_datos_especie df especie).isEmpty = true
    · unfold calcular_estadisticas at hst
      simp only [hi, if_true] at hst
      exact absurd hst (by simp)
    · have hne : (obtener_datos_especie df especie).isEmpty = false := by
        simpa using hi
      unfold calcular_estadisticas at hst
      simp only [hne, Bool.false_eq_true, if_false, Option.some.injEq] at hst
      subst hst
      exact ⟨by dsimp only; rw [if_neg h], by dsimp only; rw [if_neg h]⟩
  · intro df especie h
    unfold generar_informe_proyeccion
    rw [if_neg h]
  · simp only [generar_informe_proyeccion, proyectar, hdT, hpaT, hfitT, hmaxT,
      List.length_cons, List.length_nil, List.map_cons, List.map_nil,
      hval1, hval2, hval3, roundHalfEven_intCast]
    norm_num
  · simp only [calcular_estadisticas, hdT, hneT, Bool.false_eq_true, if_false,
      Option.map_some', proyectar, hpaT, hfitT, hmaxT,
      List.length_cons, List.length_nil, List.map_cons, List.map_nil,
      hval1, hval2, hval3, roundHalfEven_intCast]
    norm_num

/-- Closed instance of `C3_proyecciones`: a single-year subset yields the
insufficient-data answer of the simpler variant. -/
theorem C3_proyecciones_witness :
    ¬ 1 < (porAnio (obtener_datos_especie dfUnAnio "Jaguar")).length ∧
    generar_informe_proyeccion dfUnAnio "Jaguar" =
      ("No hay suficientes datos para proyectar tendencia.", []) :=
  ⟨by decide, C3_proyecciones.2.2.2.1 dfUnAnio "Jaguar" (by decide)⟩

/-- A raw row from a file whose province column is absent. -/
def filaSinProvincia : FilaCruda := ⟨some "Jaguar", some 3, some 2020, none⟩

/-- C4 counterexample: loading a one-row table that lacks the province
column does not leave `provincia = ""`; the empty backfill value is
fuzzy-matched (the empty string is a substring of every name) to the first
enumerated province, "Bocas del Toro". -/
theorem C4_carga_sin_provincia_counterexample :
    (cargarDesdeTabla [filaSinProvincia]).map (fun x => x.2.provincia)
      = ["Bocas del Toro"] ∧ ("Bocas del Toro" : String) ≠ "" := by decide

/-- C4 amended: loading a table without a province column succeeds (every
row is loaded) and every loaded record carries the province
"Bocas del Toro" — the backfilled empty string matched against the first
enumerated province — rather than `""`. -/
theorem C4_carga_sin_provincia (filas : List FilaCruda)
    (h : ∀ f ∈ filas, f.provincia = none) :
    (cargarDesdeTabla filas).length = filas.length ∧
    ∀ x ∈ cargarDesdeTabla filas, x.2.provincia = "Bocas del Toro" := by
  constructor
  · unfold cargarDesdeTabla
    rw [length_relabelRange, List.length_map]
  · intro x hx
    unfold cargarDesdeTabla relabelRange at hx
    obtain ⟨lab, r⟩ := x
    have hr : r ∈ filas.map cargarFila := (List.of_mem_zip hx).2
    obtain ⟨f, hf, rfl⟩ := List.mem_map.mp hr
    have hfp : f.provincia = none := h f hf
    show (cargarFila f).provincia = _
    unfold cargarFila
    rw [hfp]
    show corregir_provincia (strTrim ((none : Option String).getD ""))
      = "Bocas del Toro"
    decide

/-- Closed instance of `C4_carga_sin_provincia` at the one-row table. -/
theorem C4_carga_sin_provincia_witness :
    (∀ f ∈ [filaSinProvincia], f.provincia = none) ∧
    ((cargarDesdeTabla [filaSinProvincia]).length = [filaSinProvincia].length ∧
      ∀ x ∈ cargarDesdeTabla [filaSinProvincia],
        x.2.provincia = "Bocas del Toro") :=
  ⟨by decide, C4_carga_sin_provincia [filaSinProvincia] (by decide)⟩

/-- C5 counterexample: `corregir_provincia` does not return its argument
unchanged when the trimmed argument is an enumerated province — it returns
the trimmed value. -/
theorem C5_corregir_provincia_counterexample :
    strTrim " Colón" ∈ PROVINCIAS_PANAMA ∧
    corregir_provincia " Colón" = "Colón" ∧
    ("Colón" : String) ≠ " Colón" := by decide

/-- C5 amended: `corregir_provincia p` first trims `p`; it returns the
trimmed value when that is an enumerated province; otherwise the first
enumerated province (in list order) matching the trimmed value by
case-insensitive substring containment in either direction; otherwise the
trimmed value. -/
theorem C5_corregir_provincia (p : String) :
    (strTrim p ∈ PROVINCIAS_PANAMA → corregir_provincia p = strTrim p) ∧
    (strTrim p ∉ PROVINCIAS_PANAMA →
      (PROVINCIAS_PANAMA.find? (fun q => matchParcial (strTrim p) q) = none →
        corregir_provincia p = strTrim p) ∧
      ∀ q,
        PROVINCIAS_PANAMA.find? (fun q => matchParcial (strTrim p) q) = some q →
        corregir_provincia p = q ∧ q ∈ PROVINCIAS_PANAMA ∧
          matchParcial (strTrim p) q = true) := by
  unfold corregir_provincia
  refine ⟨fun h => by rw [if_pos h], fun h => ⟨fun hf => ?_, fun q hf => ?_⟩⟩
  · rw [if_neg h, hf]
  · rw [if_neg h, hf]
    exact ⟨rfl, List.mem_of_find?_eq_some hf, List.find?_some hf⟩

/-- Closed instance of `C5_corregir_provincia`: the free-text value
"  Pan " is trimmed and fuzzy-matched to "Panamá". -/
theorem C5_corregir_provincia_witness : corregir_provincia "  Pan " = "Panamá" :=
  (((C5_corregir_provincia "  Pan ").2 (by decide)).2 "Panamá" (by decide)).1

/-- C6: `agregar_registro` applies its checks in order — species non-empty,
species in the allowed list, count non-negative, year in 1900-2100, province
enumerated — each failure returning its own message with the state (table
and unsaved-changes flag) untouched; when all pass, exactly one row is
appended at the end (prior rows and their labels unchanged) and the flag is
set. -/
theorem C6_agregar_validacion (g : Gestor) (e : String) (c a : Int)
    (p : String) :
    (strTrim e = "" →
      agregar_registro g e c a p = (g, false, "Debe seleccionar una especie")) ∧
    (strTrim e ≠ "" → e ∉ ESPECIES_PANAMA →
      agregar_registro g e c a p =
        (g, false, "Especie no válida. Debe seleccionar de la lista")) ∧
    (strTrim e ≠ "" → e ∈ ESPECIES_PANAMA → c < 0 →
      agregar_registro g e c a p =
        (g, false, "La cantidad debe ser positiva")) ∧
    (strTrim e ≠ "" → e ∈ ESPECIES_PANAMA → ¬ c < 0 →
      ¬(1900 ≤ a ∧ a ≤ 2100) →
      agregar_registro g e c a p =
        (g, false, "El año debe estar entre 1900 y 2100")) ∧
    (strTrim e ≠ "" → e ∈ ESPECIES_PANAMA → ¬ c < 0 → (1900 ≤ a ∧ a ≤ 2100) →
      p ∉ PROVINCIAS_PANAMA →
      agregar_registro g e c a p = (g, false, "Provincia no válida")) ∧
    (etiquetasContiguas g.df → strTrim e ≠ "" → e ∈ ESPECIES_PANAMA →
      ¬ c < 0 → (1900 ≤ a ∧ a ≤ 2100) → p ∈ PROVINCIAS_PANAMA →
      agregar_registro g e c a p =
        ({ df := g.df ++ [(g.df.length, ⟨strTrim e, c, a, p⟩)]
           cambiosSinGuardar := true }, true,
         "Registro agregado correctamente")) := by
  refine ⟨fun h1 => ?_, fun h1 h2 => ?_, fun h1 h2 h3 => ?_,
    fun h1 h2 h3 h4 => ?_, fun h1 h2 h3 h4 h5 => ?_,
    fun hinv h1 h2 h3 h4 h5 => ?_⟩
  · have hv : validar e c a p = some "Debe seleccionar una especie" := by
      unfold validar; rw [if_pos h1]
    unfold agregar_registro; rw [hv]
  · have hv : validar e c a p =
        some "Especie no válida. Debe seleccionar de la lista" := by
      unfold validar; rw [if_neg h1, if_pos h2]
    unfold agregar_registro; rw [hv]
  · have hv : validar e c a p = some "La cantidad debe ser positiva" := by
      unfold validar; rw [if_neg h1, if_neg (not_not_intro h2), if_pos h3]
    unfold agregar_registro; rw [hv]
  · have hv : validar e c a p =
        some "El año debe estar entre 1900 y 2100" := by
      unfold validar
      rw [if_neg h1, if_neg (not_not_intro h2), if_neg h3, if_pos h4]
    unfold agregar_registro; rw [hv]
  · have hv : validar e c a p = some "Provincia no válida" := by
      unfold validar
      rw [if_neg h1, if_neg (not_not_intro h2), if_neg h3,
        if_neg (not_not_intro h4), if_pos h5]
    unfold agregar_registro; rw [hv]
  · have hv : validar e c a p = none := by
      unfold validar
      rw [if_neg h1, if_neg (not_not_intro h2), if_neg h3,
        if_neg (not_not_intro h4), if_neg (not_not_intro h5)]
    unfold agregar_registro
    rw [hv, relabelRange_append_singleton, relabelRange_map_snd g.df hinv,
      List.length_map]

/-- The empty manager state used to exercise `agregar_registro`. -/
def gC6 : Gestor := ⟨[], false⟩

/-- Closed instance of `C6_agregar_validacion`: a fully valid record is
appended to the empty table. -/
theorem C6_agregar_validacion_witness :
    agregar_registro gC6 "Jaguar" 5 2020 "Panamá" =
      ({ df := gC6.df ++ [(gC6.df.length, ⟨strTrim "Jaguar", 5, 2020, "Panamá"⟩)]
         cambiosSinGuardar := true }, true, "Registro agregado correctamente") :=
  (C6_agregar_validacion gC6 "Jaguar" 5 2020 "Panamá").2.2.2.2.2
    rfl (by decide) (by decide) (by decide) (by decide) (by decide)

/-- C7: when the index is in bounds and the fields validate,
`modificar_registro` replaces exactly the row at that index (the table seen
as `List.set` at the position, which also fixes the length and leaves every
other position untouched) and sets the unsaved-changes flag; an
out-of-bounds index fails with the index-error message and changes
nothing. -/
theorem C7_modificar_frame (g : Gestor) (idx : Int) (e : String) (c a : Int)
    (p : String) :
    (etiquetasContiguas g.df → 0 ≤ idx → idx < (g.df.length : Int) →
      validar e c a p = none →
      modificar_registro g idx e c a p =
        ({ df := g.df.set idx.toNat (idx.toNat, ⟨strTrim e, c, a, p⟩)
           cambiosSinGuardar := true }, true,
         "Registro modificado correctamente") ∧
      (g.df.set idx.toNat (idx.toNat, ⟨strTrim e, c, a, p⟩)).length
        = g.df.length ∧
      (g.df.set idx.toNat (idx.toNat, ⟨strTrim e, c, a, p⟩))[idx.toNat]?
        = some (idx.toNat, ⟨strTrim e, c, a, p⟩) ∧
      ∀ j, j ≠ idx.toNat →
        (g.df.set idx.toNat (idx.toNat, ⟨strTrim e, c, a, p⟩))[j]?
          = g.df[j]?) ∧
    (¬(0 ≤ idx ∧ idx < (g.df.length : Int)) →
      modificar_registro g idx e c a p = (g, false, "Índice inválido")) := by
  constructor
  · intro hinv h0 hlt hv
    refine ⟨?_, List.length_set g.df _ _, ?_, ?_⟩
    · unfold modificar_registro
      rw [if_pos ⟨h0, hlt⟩, hv,
        modificar_map_eq_set g.df hinv idx h0 ⟨strTrim e, c, a, p⟩]
    · exact List.getElem?_set_eq_of_lt _ (by omega)
    · intro j hj
      exact List.getElem?_set_ne (fun hh => hj hh.symm)
  · intro hb
    unfold modificar_registro
    rw [if_neg hb]

/-- A two-row manager state with contiguous labels, used to exercise
`modificar_registro`. -/
def gC7 : Gestor :=
  ⟨[(0, ⟨"Jaguar", 1, 2020, "Panamá"⟩), (1, ⟨"Rana Dorada", 2, 2021, "Coclé"⟩)],
   false⟩

/-- Closed instance of `C7_modificar_frame`: overwrite row 1 of the two-row
table. -/
theorem C7_modificar_frame_witness :
    modificar_registro gC7 1 "Tortuga Carey" 7 2022 "Colón" =
      ({ df := gC7.df.set (1 : Int).toNat
            ((1 : Int).toNat, ⟨strTrim "Tortuga Carey", 7, 2022, "Colón"⟩)
         cambiosSinGuardar := true }, true,
       "Registro modificado correctamente") :=
  (((C7_modificar_frame gC7 1 "Tortuga Carey" 7 2022 "Colón").1
    rfl (by decide) (by decide) (by decide))).1

/-- A dataset whose only species name is the empty string. -/
def dfVacias : List Registro := [⟨"", 3, 2020, "Panamá"⟩]

/-- C8 counterexample: `obtener_especies` does not exclude empty species
names — on a dataset whose only species is `""` it returns `[""]`, not the
empty sequence. -/
theorem C8_obtener_especies_counterexample :
    obtener_especies dfVacias = [""] ∧ ([""] : List String) ≠ [] := by decide

/-- C8 amended: `obtener_especies` returns the distinct species names in
ascending case-sensitive (code-point) lexicographic order; empty strings are
kept (only pandas nulls are dropped, and the embedded column holds no
nulls).  The empty dataset yields the empty sequence and
["Jaguar", "jaguar", "Tapir"] yields ["Jaguar", "Tapir", "jaguar"]. -/
theorem C8_obtener_especies (df : List Registro) :
    (obtener_especies df).Pairwise (fun x y => strLeB x y = true) ∧
    (obtener_especies df).Nodup ∧
    (∀ s, s ∈ obtener_especies df ↔ s ∈ df.map (fun r => r.especie)) ∧
    obtener_especies ([] : List Registro) = [] ∧
    obtener_especies
        [⟨"Jaguar", 1, 2020, "Panamá"⟩, ⟨"jaguar", 1, 2020, "Panamá"⟩,
         ⟨"Tapir", 1, 2020, "Panamá"⟩]
      = ["Jaguar", "Tapir", "jaguar"] := by
  refine ⟨pairwise_sortBy strLeB strLeB_total strLeB_trans _, ?_, ?_,
    by decide, by decide⟩
  · exact ((sortBy_perm strLeB _).nodup_iff).mpr (List.nodup_dedup _)
  · intro s
    rw [obtener_especies, (sortBy_perm strLeB _).mem_iff, List.mem_dedup]

/-- Closed instance of `C8_obtener_especies` at the one-row dataset. -/
theorem C8_obtener_especies_witness : (obtener_especies dfVacias).Nodup :=
  (C8_obtener_especies dfVacias).2.1

/-- A one-year Jaguar subset with counts 0, 0, 5: its mean is 5/3. -/
def dfTercios : List Registro :=
  [⟨"Jaguar", 0, 2020, "Panamá"⟩, ⟨"Jaguar", 0, 2020, "Panamá"⟩,
   ⟨"Jaguar", 5, 2020, "Panamá"⟩]

/-- C9 counterexample: on counts 0, 0, 5 the mean is 5/3; rounding to the
nearest integer gives 2, but `calcular_estadisticas` reports `promedio = 1`
(Python `int(...)` truncates). -/
theorem C9_promedio_counterexample :
    (calcular_estadisticas dfTercios "Jaguar").map Stats.promedio = some 1 ∧
    roundHalfEven ((5 : ℚ) / 3) = 2 ∧ ((1 : Int) ≠ 2) := by
  have hd : obtener_datos_especie dfTercios "Jaguar" = dfTercios := by decide
  have hpa : porAnio dfTercios = [(2020, 5)] := by decide
  have hpp : porProvinciaAgg dfTercios = [("Panamá", 5)] := by decide
  have hne : dfTercios.isEmpty = false := rfl
  refine ⟨?_, by norm_num [roundHalfEven], by decide⟩
  simp only [calcular_estadisticas, hd, hne, Bool.false_eq_true, if_false,
    Option.map_some', hpa]
  norm_num [truncQ, dfTercios]

/-- C9 amended: for every non-empty species subset the reported `promedio`
is the arithmetic mean of the counts truncated toward zero
(`int(datos["Cantidad"].mean())`), not rounded to the nearest integer. -/
theorem C9_promedio (df : List Registro) (especie : String)
    (h : obtener_datos_especie df especie ≠ []) :
    (calcular_estadisticas df especie).isSome = true ∧
    ∀ st, calcular_estadisticas df especie = some st →
      st.promedio = truncQ
        ((((obtener_datos_especie df especie).map
            (fun r => (r.cantidad : ℚ))).sum)
          / ((obtener_datos_especie df especie).length : ℚ)) := by
  have hne : (obtener_datos_especie df especie).isEmpty = false := by
    rcases hd : obtener_datos_especie df especie with _ | ⟨a, t⟩
    · exact absurd hd h
    · rfl
  constructor
  · unfold calcular_estadisticas
    simp [hne]
  · intro st hst
    unfold calcular_estadisticas at hst
    simp only [hne, Bool.false_eq_true, if_false, Option.some.injEq] at hst
    subst hst
    rfl

/-- Closed instance of `C9_promedio` at the counts 0, 0, 5. -/
theorem C9_promedio_witness :
    (calcular_estadisticas dfTercios "Jaguar").isSome = true :=
  (C9_promedio dfTercios "Jaguar" (by decide)).1

/-- C10: every table operation keeps the labels equal to the contiguous
range `0 .. length-1` (load installs it; add, modify and delete preserve
it), and under that invariant the label of the row at position `j` is `j`,
so the positional index used by the UI coincides with the label index used
by modify/delete.  The four-column schema itself is fixed by the `Registro`
type. -/
theorem C10_indice_contiguo :
    (∀ filas, etiquetasContiguas (cargarDesdeTabla filas)) ∧
    (∀ g e c a p, etiquetasContiguas g.df →
      etiquetasContiguas (agregar_registro g e c a p).1.df) ∧
    (∀ g idx e c a p, etiquetasContiguas g.df →
      etiquetasContiguas (modificar_registro g idx e c a p).1.df) ∧
    (∀ g idx, etiquetasContiguas g.df →
      etiquetasContiguas (eliminar_registro g idx).1.df) ∧
    (∀ df, etiquetasContiguas df → ∀ j, ∀ hj : j < df.length,
      (df.get ⟨j, hj⟩).1 = j) := by
  refine ⟨fun filas => etiquetas_relabelRange _, ?_, ?_, ?_, ?_⟩
  · intro g e c a p hinv
    unfold agregar_registro
    cases hv : validar e c a p with
    | some m => exact hinv
    | none => exact etiquetas_relabelRange _
  · intro g idx e c a p hinv
    unfold modificar_registro
    by_cases hb : 0 ≤ idx ∧ idx < (g.df.length : Int)
    · rw [if_pos hb]
      cases hv : validar e c a p with
      | some m => exact hinv
      | none =>
        show etiquetasContiguas (g.df.map _)
        unfold etiquetasContiguas
        rw [List.map_map, List.length_map]
        have hf : (Prod.fst ∘ fun x : Nat × Registro =>
            if (x.1 : Int) = idx then
              (x.1, Registro.mk (strTrim e) c a p) else x) = Prod.fst := by
          funext x
          by_cases hx : ((x.1 : Int) = idx) <;> simp [hx]
        rw [hf]
        exact hinv
    · rw [if_neg hb]
      exact hinv
  · intro g idx hinv
    unfold eliminar_registro
    by_cases hb : 0 ≤ idx ∧ idx < (g.df.length : Int)
    · rw [if_pos hb]
      exact etiquetas_relabelRange _
    · rw [if_neg hb]
      exact hinv
  · intro df hinv j hj
    rw [List.get_eq_getElem]
    exact etiqueta_at df hinv j hj

/-- Closed instance of `C10_indice_contiguo`: adding a valid record to the
empty table keeps the labels contiguous. -/
theorem C10_indice_contiguo_witness :
    etiquetasContiguas
      (agregar_registro ⟨[], false⟩ "Jaguar" 1 2020 "Panamá").1.df :=
  C10_indice_contiguo.2.1 ⟨[], false⟩ "Jaguar" 1 2020 "Panamá" rfl
